import Mathlib

/-!
Verification development for the ScraperWebDigifactory crawler.

This file gives a shallow embedding, in Lean 4, of the parts of the
repository that the checked properties talk about:

* the secret-redaction pass (src/parse/redact.py),
* the login-page and double-session detectors (src/auth/login_detector.py),
* the tolerant base64 decoder (src/parse/jsinfos.py),
* the progress ledger query (src/store/state.py),
* the run-control counters (src/jobs/run_control.py),
* the retrying fetch client (src/fetch/client.py),
* the per-record pipeline and the batch flush (src/jobs/runner.py),

followed by theorems settling the stated properties.  Python regular
expressions are embedded through a small executable matcher that
reproduces the leftmost, greedy, backtracking semantics of re.search
and re.sub for the pattern shapes used by the repository (literals and
character classes with ?, * and + quantifiers; the IGNORECASE flag).
-/

namespace DF

/-- Double-quote character, written by code point to keep sources tidy. -/
def dq : Char := Char.ofNat 34

/-- Single-quote character, written by code point. -/
def sq : Char := Char.ofNat 39

/-- Lowercasing of one character as Python str.lower performs it on the
character sets that occur in this code base (ASCII plus Latin-1
uppercase letters).  Characters outside these ranges are kept. -/
def pyLower (c : Char) : Char :=
  if 65 ≤ c.toNat && c.toNat ≤ 90 then Char.ofNat (c.toNat + 32)
  else if 192 ≤ c.toNat && c.toNat ≤ 222 && c.toNat ≠ 215 then Char.ofNat (c.toNat + 32)
  else c

/-- Python str.lower on a whole string. -/
def lowerStr (s : String) : String := String.mk (s.toList.map pyLower)

/-- Whether the first list is a prefix of the second (Boolean). -/
def isPrefixB : List Char → List Char → Bool
  | [], _ => true
  | _ :: _, [] => false
  | a :: as, b :: bs => a == b && isPrefixB as bs

/-- Python substring containment, the `needle in hay` test, on char lists. -/
def containsB (needle : List Char) : List Char → Bool
  | [] => isPrefixB needle []
  | c :: cs => isPrefixB needle (c :: cs) || containsB needle cs

/-- Python substring containment on strings. -/
def strContains (hay needle : String) : Bool := containsB needle.toList hay.toList

/-- Quantifier of one regular-expression atom: exactly one, `?`, `*`, `+`. -/
inductive RQuant where
  | one
  | opt
  | star
  | plus
deriving Repr

/-- One atom of an embedded regular expression: a character class
together with its quantifier.  Literal characters are classes that
compare case-insensitively, which realises the IGNORECASE flag. -/
structure RAtom where
  cls : Char → Bool
  q : RQuant

/-- Greedy backtracking matcher for a pattern anchored at the start of
the input, carrying explicit fuel so that recursion is structural and
the kernel can evaluate it.  Returns the number of consumed characters
of the preferred (leftmost-greedy) match, mirroring the Python re
engine on patterns without alternation.  Quantified classes prefer to
consume as much as possible and fall back one character at a time.
Every recursive call decreases the lexicographic measure
(input length, pattern length), and a pattern never grows, so the fuel
chosen by matchAtoms below is always sufficient. -/
def matchAtomsF : Nat → List RAtom → List Char → Option Nat
  | _, [], _ => some 0
  | 0, _ :: _, _ => none
  | _ + 1, ⟨cls, .one⟩ :: _, [] =>
    let _ := cls; none
  | fuel + 1, ⟨cls, .one⟩ :: rest, c :: cs =>
    if cls c then (matchAtomsF fuel rest cs).map (· + 1) else none
  | fuel + 1, ⟨_, .opt⟩ :: rest, [] => matchAtomsF fuel rest []
  | fuel + 1, ⟨cls, .opt⟩ :: rest, c :: cs =>
    if cls c then
      match matchAtomsF fuel rest cs with
      | some n => some (n + 1)
      | none => matchAtomsF fuel rest (c :: cs)
    else matchAtomsF fuel rest (c :: cs)
  | fuel + 1, ⟨_, .star⟩ :: rest, [] => matchAtomsF fuel rest []
  | fuel + 1, ⟨cls, .star⟩ :: rest, c :: cs =>
    if cls c then
      match matchAtomsF fuel (⟨cls, .star⟩ :: rest) cs with
      | some n => some (n + 1)
      | none => matchAtomsF fuel rest (c :: cs)
    else matchAtomsF fuel rest (c :: cs)
  | _ + 1, ⟨cls, .plus⟩ :: _, [] =>
    let _ := cls; none
  | fuel + 1, ⟨cls, .plus⟩ :: rest, c :: cs =>
    if cls c then (matchAtomsF fuel (⟨cls, .star⟩ :: rest) cs).map (· + 1) else none

/-- Matcher entry point with sufficient fuel for its input. -/
def matchAtoms (p : List RAtom) (cs : List Char) : Option Nat :=
  matchAtomsF ((cs.length + 1) * (p.length + 1)) p cs

/-- Leftmost search, as re.search: the start index and consumed length
of the first position where the pattern matches. -/
def searchPos (p : List RAtom) : List Char → Option (Nat × Nat)
  | [] =>
    match matchAtoms p [] with
    | some L => some (0, L)
    | none => none
  | c :: cs =>
    match matchAtoms p (c :: cs) with
    | some L => some (0, L)
    | none => (searchPos p cs).map (fun r => (r.1 + 1, r.2))

/-- Boolean form of re.search. -/
def research (p : List RAtom) (cs : List Char) : Bool := (searchPos p cs).isSome

/-- Fueled worker for global substitution.  Each recursive call
consumes at least one character of the remaining input, so fuel equal
to the input length plus one is always sufficient. -/
def subAllF (p : List RAtom) (repl : List Char) : Nat → List Char → List Char
  | 0, cs => cs
  | _ + 1, [] =>
    match searchPos p [] with
    | some _ => repl
    | none => []
  | fuel + 1, c :: cs =>
    match searchPos p (c :: cs) with
    | none => c :: cs
    | some (i, 0) =>
      (c :: cs).take i ++ repl ++
        (match (c :: cs).drop i with
         | [] => []
         | d :: tl => d :: subAllF p repl fuel tl)
    | some (i, L + 1) =>
      (c :: cs).take i ++ repl ++ subAllF p repl fuel ((c :: cs).drop (i + (L + 1)))

/-- Global substitution, as re.sub with a fixed replacement string:
replace every non-overlapping leftmost match, scanning left to right;
a zero-width match emits the replacement, keeps the current character
and resumes one position later. -/
def subAll (p : List RAtom) (repl : List Char) (cs : List Char) : List Char :=
  subAllF p repl (cs.length + 1) cs

/-- Atom with quantifier exactly-one. -/
def aOne (f : Char → Bool) : RAtom := ⟨f, .one⟩

/-- Atom with quantifier `?`. -/
def aOpt (f : Char → Bool) : RAtom := ⟨f, .opt⟩

/-- Atom with quantifier `*`. -/
def aStar (f : Char → Bool) : RAtom := ⟨f, .star⟩

/-- Atom with quantifier `+`. -/
def aPlus (f : Char → Bool) : RAtom := ⟨f, .plus⟩

/-- Literal text, each character matched case-insensitively (IGNORECASE). -/
def litP (s : String) : List RAtom :=
  s.toList.map (fun c => aOne (fun x => pyLower x == pyLower c))

/-- Class `\s` of the Python re module (ASCII whitespace as used here). -/
def wsCls (c : Char) : Bool :=
  c == ' ' || c == Char.ofNat 9 || c == Char.ofNat 10 || c == Char.ofNat 13 ||
  c == Char.ofNat 11 || c == Char.ofNat 12

/-- Class `[:=]`. -/
def sepCls (c : Char) : Bool := c == ':' || c == '='

/-- Class matching a double or single quote. -/
def quoteCls (c : Char) : Bool := c == dq || c == sq

/-- Class matching any character except a double or single quote. -/
def notQuoteCls (c : Char) : Bool := !(c == dq || c == sq)

/-- Class `.` without DOTALL: everything but a newline. -/
def dotCls (c : Char) : Bool := !(c == Char.ofNat 10)

/-- Class matching any character except a closing angle bracket. -/
def notGtCls (c : Char) : Bool := !(c == '>')

/-- Class matching any character except semicolon, comma or whitespace. -/
def cookieCls (c : Char) : Bool := !(c == ';' || c == ',' || wsCls c)

/-!
Redaction (src/parse/redact.py).  The six substitution patterns of
redact_string, lines 13-20, in source order, each paired with its fixed
replacement text.
-/

/-- Pattern for digiSuiteVars websocket tokens in script text. -/
def patWebsocket : List RAtom :=
  litP "digiSuiteVars.websocketAuthToken" ++
  [aStar wsCls, aOne sepCls, aStar wsCls, aOne quoteCls, aPlus notQuoteCls, aOne quoteCls]

/-- Pattern for gmKey assignments. -/
def patGmKey : List RAtom :=
  litP "gmKey" ++
  [aOpt quoteCls, aStar wsCls, aOne sepCls, aStar wsCls, aOne quoteCls,
   aPlus notQuoteCls, aOne quoteCls]

/-- Pattern for access_token assignments. -/
def patAccessToken : List RAtom :=
  litP "access_token" ++
  [aOpt quoteCls, aStar wsCls, aOne sepCls, aStar wsCls, aOne quoteCls,
   aPlus notQuoteCls, aOne quoteCls]

/-- Pattern for refresh_token assignments. -/
def patRefreshToken : List RAtom :=
  litP "refresh_token" ++
  [aOpt quoteCls, aStar wsCls, aOne sepCls, aStar wsCls, aOne quoteCls,
   aPlus notQuoteCls, aOne quoteCls]

/-- Pattern for Authorization Bearer headers. -/
def patAuthorization : List RAtom :=
  litP "Authorization" ++
  [aOpt quoteCls, aStar wsCls, aOne sepCls, aStar wsCls, aOne quoteCls] ++
  litP "Bearer" ++ [aPlus wsCls, aPlus notQuoteCls, aOne quoteCls]

/-- Pattern for the DigifactoryBO session cookie. -/
def patCookieBO : List RAtom :=
  litP "DigifactoryBO=" ++ [aPlus cookieCls]

/-- The six (pattern, replacement) pairs of redact_string in source order. -/
def redactPatterns : List (List RAtom × List Char) :=
  [(patWebsocket, "digiSuiteVars.websocketAuthToken = \"[REDACTED]\"".toList),
   (patGmKey, "gmKey = \"[REDACTED]\"".toList),
   (patAccessToken, "access_token = \"[REDACTED]\"".toList),
   (patRefreshToken, "refresh_token = \"[REDACTED]\"".toList),
   (patAuthorization, "Authorization = \"Bearer [REDACTED]\"".toList),
   (patCookieBO, "DigifactoryBO=[REDACTED]".toList)]

/-- Embedding of redact_string (redact.py lines 7-26): empty input is
returned unchanged, otherwise the six substitutions run in order. -/
def redact_string (text : String) : String :=
  if text == "" then text
  else String.mk (redactPatterns.foldl (fun acc pr => subAll pr.1 pr.2 acc) text.toList)

/-!
JSON-shaped values.  Python dicts, lists, strings, numbers, booleans and
None are embedded by a mutual inductive family so that structural
recursion and induction are available.
-/

mutual
/-- A JSON-shaped Python value. -/
inductive JValue where
  | jnull : JValue
  | jbool : Bool → JValue
  | jnum : Int → JValue
  | jstr : String → JValue
  | jarr : JList → JValue
  | jobj : JFields → JValue

/-- A Python list of JSON-shaped values. -/
inductive JList where
  | nil : JList
  | cons : JValue → JList → JList

/-- A Python dict: ordered key-value pairs with distinct keys. -/
inductive JFields where
  | nil : JFields
  | cons : String → JValue → JFields → JFields
end

/-- Membership and lookup of a key in a dict, as Python `d[k]` / `k in d`. -/
def objLookup : JFields → String → Option JValue
  | .nil, _ => none
  | .cons k v tl, key => if k == key then some v else objLookup tl key

/-- In-place update of an existing key, as Python `d[k] = v`. -/
def objSet : JFields → String → JValue → JFields
  | .nil, _, _ => .nil
  | .cons k v tl, key, newV =>
    if k == key then .cons k newV tl else .cons k v (objSet tl key newV)

/-- Sensitive key names of redact_dict (redact.py line 37), all lowercase. -/
def sensitiveKeys : List String :=
  ["gmkey", "gm_key", "websocketauthtoken", "access_token", "refresh_token"]

/-- The fixed mask token written for sensitive keys. -/
def maskToken : JValue := .jstr "[REDACTED]"

/-- Special handling of nested config objects (redact.py lines 49-51):
if the dict has a config entry that is itself a dict with a gmKey entry,
that entry is overwritten with the mask. -/
def fixConfig (fs : JFields) : JFields :=
  match objLookup fs "config" with
  | some (.jobj cfs) =>
    if (objLookup cfs "gmKey").isSome then
      objSet fs "config" (.jobj (objSet cfs "gmKey" maskToken))
    else fs
  | _ => fs

mutual
/-- Loop body of redact_dict (redact.py lines 34-46): sensitive keys are
masked outright; dict values recurse; list items recurse one level
(dict items recurse, string items are string-redacted, other items are
kept); string values are string-redacted; all else is kept. -/
def redactFields : JFields → JFields
  | .nil => .nil
  | .cons k v tl =>
    let v2 :=
      if sensitiveKeys.contains (lowerStr k) then maskToken
      else
        match v with
        | .jobj fs => JValue.jobj (fixConfig (redactFields fs))
        | .jarr xs => JValue.jarr (redactListItems xs)
        | .jstr s => JValue.jstr (redact_string s)
        | other => other
    JFields.cons k v2 (redactFields tl)

/-- List comprehension of redact_dict (redact.py line 42). -/
def redactListItems : JList → JList
  | .nil => .nil
  | .cons x tl =>
    let x2 :=
      match x with
      | .jobj fs => JValue.jobj (fixConfig (redactFields fs))
      | .jstr s => JValue.jstr (redact_string s)
      | other => other
    JList.cons x2 (redactListItems tl)
end

/-- Embedding of redact_dict (redact.py lines 29-53): the field loop
followed by the nested-config special case. -/
def redact_dict (fs : JFields) : JFields := fixConfig (redactFields fs)

mutual
/-- Embedding of redact_json (redact.py lines 56-65). -/
def redact_json : JValue → JValue
  | .jobj fs => .jobj (redact_dict fs)
  | .jarr xs => .jarr (redactJsonList xs)
  | .jstr s => .jstr (redact_string s)
  | other => other

/-- List comprehension of redact_json (redact.py line 61). -/
def redactJsonList : JList → JList
  | .nil => .nil
  | .cons x tl => .cons (redact_json x) (redactJsonList tl)
end

/-!
Detectors (src/auth/login_detector.py).
-/

/-- The five conflict-indicator patterns of is_double_session_popup
(login_detector.py lines 19-25), in source order. -/
def doubleSessionPatterns : List (List RAtom) :=
  [litP "double session",
   litP "deuxième session" ++ [aStar dotCls] ++ litP "active",
   litP "session en trop",
   litP "quittez et reconnectez",
   litP "fermer la session"]

/-- Embedding of is_double_session_popup (login_detector.py lines 8-29):
false on a missing or empty body, otherwise true when at least two of
the five conflict-indicator patterns match the lowercased body. -/
def is_double_session_popup (responseHtml : Option String) : Bool :=
  match responseHtml with
  | none => false
  | some h =>
    if h == "" then false
    else
      let hl := (lowerStr h).toList
      decide (2 ≤ doubleSessionPatterns.countP (fun p => research p hl))

/-- The seven strong login indicators of is_login_page
(login_detector.py lines 60-68), in source order. -/
def strongLoginPatterns : List (List RAtom) :=
  [litP "<title" ++ [aStar notGtCls] ++ litP ">" ++ [aStar dotCls] ++
     litP "connexion" ++ [aStar dotCls] ++ litP "</title>",
   litP "<h1" ++ [aStar notGtCls] ++ litP ">" ++ [aStar dotCls] ++
     litP "se connecter" ++ [aStar dotCls] ++ litP "</h1>",
   litP "<h2" ++ [aStar notGtCls] ++ litP ">" ++ [aStar dotCls] ++
     litP "connexion" ++ [aStar dotCls] ++ litP "</h2>",
   litP "name=" ++ [aOne quoteCls] ++ litP "username" ++ [aOne quoteCls],
   litP "name=" ++ [aOne quoteCls] ++ litP "password" ++ [aOne quoteCls],
   litP "id=" ++ [aOne quoteCls] ++ litP "login" ++ [aOne quoteCls],
   litP "class=" ++ [aOne quoteCls, aStar notQuoteCls] ++ litP "login" ++
     [aStar notQuoteCls, aOne quoteCls]]

/-- The weak indicator vocabulary of is_login_page
(login_detector.py lines 75-80). -/
def weakLoginIndicators : List String :=
  ["se connecter", "connexion", "identifiant", "mot de passe"]

/-- URL check of is_login_page (login_detector.py lines 49-51). -/
def loginUrlMarker (finalUrl : String) : Bool :=
  let u := lowerStr finalUrl
  strContains u "login" || strContains u "connexion"

/-- Embedding of is_login_page (login_detector.py lines 32-90): any 302
response is treated as a login redirect outright; then the final URL is
checked for a login marker; a missing or empty body yields false; then
the strong indicators, the two-weak-indicators rule, and finally the
double-session detector are consulted in order. -/
def is_login_page (responseHtml : Option String) (statusCode : Nat) (finalUrl : String) :
    Bool :=
  if statusCode == 302 then true
  else if loginUrlMarker finalUrl then true
  else
    match responseHtml with
    | none => false
    | some h =>
      if h == "" then false
      else
        let hl := lowerStr h
        if strongLoginPatterns.any (fun p => research p hl.toList) then true
        else if decide (2 ≤ weakLoginIndicators.countP (fun w => strContains hl w)) then
          true
        else is_double_session_popup (some h)

/-!
Tolerant base64 decoding (src/parse/jsinfos.py lines 10-20).
-/

/-- Value of one character of the standard base64 alphabet. -/
def b64charVal (c : Char) : Option Nat :=
  if 65 ≤ c.toNat && c.toNat ≤ 90 then some (c.toNat - 65)
  else if 97 ≤ c.toNat && c.toNat ≤ 122 then some (c.toNat - 97 + 26)
  else if 48 ≤ c.toNat && c.toNat ≤ 57 then some (c.toNat - 48 + 52)
  else if c == '+' then some 62
  else if c == '/' then some 63
  else none

/-- Byte assembly of base64 data values, four at a time.  A trailing
group of one data character is the invalid-padding error that
binascii.a2b_base64 raises; trailing groups of two or three yield one
and two bytes. -/
def b64chunks : List Nat → Except String (List Nat)
  | [] => .ok []
  | [_] => .error "Invalid base64-encoded string: number of data characters cannot be 1 more than a multiple of 4"
  | [a, b] => .ok [a * 4 + b / 16]
  | [a, b, c] => .ok [a * 4 + b / 16, b % 16 * 16 + c / 4]
  | a :: b :: c :: d :: rest =>
    (b64chunks rest).map
      (fun bs => (a * 4 + b / 16) :: (b % 16 * 16 + c / 4) :: (c % 4 * 64 + d) :: bs)

/-- Embedding of base64.b64decode with validate left False, faithful
for inputs made of base64-alphabet characters optionally followed by
padding, which is the only shape decode_base64_safe produces:
non-alphabet characters (including padding) are discarded, then the
data characters are decoded; a data-character count of one more than a
multiple of four is an error. -/
def b64decode (s : String) : Except String (List Nat) :=
  b64chunks (s.toList.filterMap b64charVal)

/-- Embedding of decode_base64_safe (jsinfos.py lines 10-20): when the
input length is not a multiple of four, padding is appended up to the
next multiple of four, then the decoder runs; decoder errors propagate
to the caller (the except clause re-raises). -/
def decode_base64_safe (dataStr : String) : Except String (List Nat) :=
  let missing := dataStr.length % 4
  let padded :=
    if missing ≠ 0 then dataStr ++ String.mk (List.replicate (4 - missing) '=')
    else dataStr
  b64decode padded

/-!
Progress ledger (src/store/state.py).  The scrape_progress table has nr
as integer primary key, so a database state is a finite map from
record numbers to stored statuses.
-/

/-- Status values stored by the ledger. -/
inductive PStatus where
  | ok
  | failed
  | notFound
deriving DecidableEq, Repr

/-- Ascending list of the integers from a to b inclusive. -/
def rangeInts (a b : Int) : List Int :=
  (List.range (b + 1 - a).toNat).map (fun i : Nat => a + (i : Int))

/-- Embedding of StateDB.get_next_undone (state.py lines 85-97): the
SELECT collects the ok-marked numbers between the bounds, and the
sorted difference of the full ascending duplicate-free range minus that
set is exactly the ascending range filtered by non-membership. -/
def get_next_undone (db : Int → Option PStatus) (start stop : Int) : List Int :=
  let all_nrs := rangeInts start stop
  let done_nrs := all_nrs.filter (fun n => db n == some PStatus.ok)
  all_nrs.filter (fun n => !done_nrs.contains n)

/-!
Run control (src/jobs/run_control.py).  Elapsed time is passed to
should_stop explicitly instead of being read from a clock.
-/

/-- Counter and threshold state of the RunControl dataclass. -/
structure RunControl where
  limit_gated : Option Int := none
  stop_after_minutes : Option Int := none
  max_errors : Option Int := none
  max_consecutive_errors : Option Int := none
  max_403 : Option Int := none
  max_429 : Option Int := none
  fail_fast : Bool := false
  gated_count : Int := 0
  error_count : Int := 0
  consecutive_errors : Int := 0
  error_403_count : Int := 0
  error_429_count : Int := 0
deriving Repr

/-- Truthiness of an optional integer threshold, as Python: None and 0
are falsy, so both disable the corresponding check. -/
def pyTruthy : Option Int → Bool
  | none => false
  | some k => decide (k ≠ 0)

/-- The limit_gated check of should_stop (run_control.py line 36). -/
def trigGated (rc : RunControl) : Bool :=
  pyTruthy rc.limit_gated && decide (rc.limit_gated.getD 0 ≤ rc.gated_count)

/-- The stop_after_minutes check (run_control.py line 40). -/
def trigTime (rc : RunControl) (elapsedMinutes : Int) : Bool :=
  pyTruthy rc.stop_after_minutes && decide (rc.stop_after_minutes.getD 0 ≤ elapsedMinutes)

/-- The max_errors check (run_control.py line 44). -/
def trigErrors (rc : RunControl) : Bool :=
  pyTruthy rc.max_errors && decide (rc.max_errors.getD 0 ≤ rc.error_count)

/-- The max_consecutive_errors check (run_control.py line 48). -/
def trigConsec (rc : RunControl) : Bool :=
  pyTruthy rc.max_consecutive_errors &&
    decide (rc.max_consecutive_errors.getD 0 ≤ rc.consecutive_errors)

/-- The max_403 check (run_control.py line 52). -/
def trig403 (rc : RunControl) : Bool :=
  pyTruthy rc.max_403 && decide (rc.max_403.getD 0 ≤ rc.error_403_count)

/-- The max_429 check (run_control.py line 56). -/
def trig429 (rc : RunControl) : Bool :=
  pyTruthy rc.max_429 && decide (rc.max_429.getD 0 ≤ rc.error_429_count)

/-- Embedding of RunControl.should_stop (run_control.py lines 31-59):
the six checks run in source order and the first triggered one supplies
the reason. -/
def should_stop (rc : RunControl) (elapsedMinutes : Int) : Bool × Option String :=
  if trigGated rc then
    (true, some ("Reached limit_gated=" ++ toString (rc.limit_gated.getD 0)))
  else if trigTime rc elapsedMinutes then
    (true, some ("Reached stop_after_minutes=" ++ toString (rc.stop_after_minutes.getD 0)))
  else if trigErrors rc then
    (true, some ("Reached max_errors=" ++ toString (rc.max_errors.getD 0)))
  else if trigConsec rc then
    (true, some ("Reached max_consecutive_errors=" ++ toString (rc.max_consecutive_errors.getD 0)))
  else if trig403 rc then
    (true, some ("Reached max_403=" ++ toString (rc.max_403.getD 0)))
  else if trig429 rc then
    (true, some ("Reached max_429=" ++ toString (rc.max_429.getD 0)))
  else (false, none)

/-- Embedding of RunControl.record_gated (run_control.py lines 61-64). -/
def record_gated (rc : RunControl) : RunControl :=
  { rc with gated_count := rc.gated_count + 1, consecutive_errors := 0 }

/-- Embedding of RunControl.record_error (run_control.py lines 66-75). -/
def record_error (rc : RunControl) (statusCode : Option Int) : RunControl :=
  let rc1 := { rc with
    error_count := rc.error_count + 1,
    consecutive_errors := rc.consecutive_errors + 1 }
  if statusCode == some 403 then { rc1 with error_403_count := rc1.error_403_count + 1 }
  else if statusCode == some 429 then { rc1 with error_429_count := rc1.error_429_count + 1 }
  else rc1

/-- Embedding of RunControl.record_success (run_control.py lines 77-79). -/
def record_success (rc : RunControl) : RunControl :=
  { rc with consecutive_errors := 0 }

/-!
Fetch client (src/fetch/client.py).  The HTTP side effects are embedded
as a stream of outcomes of the successive GET requests the client
issues; the fetch body consumes it left to right.
-/

/-- One HTTP response as the client observes it. -/
structure HResponse where
  status : Nat
  body : String
  finalUrl : String
deriving Repr

/-- Outcome of one client GET: a response, a timeout, or a network
error (the two exception families of the retry predicate). -/
inductive GetOutcome where
  | got : HResponse → GetOutcome
  | timedOut : GetOutcome
  | netFailed : GetOutcome

/-- Errors a fetch call can surface. -/
inductive FetchErr where
  | timeoutExc
  | networkExc
  | httpStatusExc (code : Nat)
  | doubleSessionPersists
  | stillLoginPage
  | reloginUnsuccessful
deriving DecidableEq, Repr

/-- Embedding of is_retryable_status (client.py lines 19-21). -/
def is_retryable_status (code : Nat) : Bool :=
  code == 429 || code == 500 || code == 502 || code == 503 || code == 504

/-- Final status handling of the fetch body (client.py lines 109-119):
a retryable status raises HTTPStatusError via raise_for_status, every
other status, 404 included, returns the response.  The pair carries the
next unread index of the GET stream. -/
def statusPhase (r : HResponse) (i : Nat) : Except FetchErr HResponse × Nat :=
  if is_retryable_status r.status then (.error (.httpStatusExc r.status), i)
  else (.ok r, i)

/-- Login-page handling of the fetch body (client.py lines 91-107):
on a detected login page, a successful relogin triggers one retried
GET, which must no longer look like a login page; a failed relogin with
the sticky failure flag set raises; otherwise processing falls
through to the status checks. -/
def loginPhase (env : Nat → GetOutcome) (reloginOk reloginFailedFlag : Bool)
    (r : HResponse) (i : Nat) : Except FetchErr HResponse × Nat :=
  if is_login_page (some r.body) r.status r.finalUrl then
    if reloginOk then
      match env i with
      | .timedOut => (.error .timeoutExc, i + 1)
      | .netFailed => (.error .networkExc, i + 1)
      | .got r2 =>
        if is_login_page (some r2.body) r2.status r2.finalUrl then
          (.error .stillLoginPage, i + 1)
        else statusPhase r2 (i + 1)
    else if reloginFailedFlag then (.error .reloginUnsuccessful, i)
    else statusPhase r i
  else statusPhase r i

/-- One attempt of FetchClient.fetch (client.py lines 59-122): the GET
result is checked first for the double-session popup, with one
recovery retry after re-authentication and a hard failure when the
popup persists, then for a login page, then for retryable statuses. -/
def fetchAttempt (env : Nat → GetOutcome) (reloginOk reloginFailedFlag : Bool)
    (i : Nat) : Except FetchErr HResponse × Nat :=
  match env i with
  | .timedOut => (.error .timeoutExc, i + 1)
  | .netFailed => (.error .networkExc, i + 1)
  | .got r =>
    if is_double_session_popup (some r.body) then
      match env (i + 1) with
      | .timedOut => (.error .timeoutExc, i + 2)
      | .netFailed => (.error .networkExc, i + 2)
      | .got r2 =>
        if is_double_session_popup (some r2.body) then
          (.error .doubleSessionPersists, i + 2)
        else loginPhase env reloginOk reloginFailedFlag r2 (i + 2)
    else loginPhase env reloginOk reloginFailedFlag r (i + 1)

/-- The tenacity wrapper of fetch (client.py lines 53-58):
stop_after_attempt 5, retry only on TimeoutException and NetworkError,
reraise.  Returns the final outcome, the next unread GET index, and
how many attempts ran. -/
def fetchRetryF (env : Nat → GetOutcome) (reloginOk reloginFailedFlag : Bool) :
    Nat → Nat → Except FetchErr HResponse × Nat × Nat
  | 0, i => (.error .timeoutExc, i, 0)
  | left + 1, i =>
    let step := fetchAttempt env reloginOk reloginFailedFlag i
    match step.1 with
    | .error e =>
      if (e == FetchErr.timeoutExc || e == FetchErr.networkExc) && left != 0 then
        let rest := fetchRetryF env reloginOk reloginFailedFlag left step.2
        (rest.1, rest.2.1, rest.2.2 + 1)
      else (step.1, step.2, 1)
    | .ok r => (.ok r, step.2, 1)

/-- Embedding of a full FetchClient.fetch call: up to five attempts on
the GET stream, starting at its beginning. -/
def fetch (env : Nat → GetOutcome) (reloginOk reloginFailedFlag : Bool) :
    Except FetchErr HResponse × Nat × Nat :=
  fetchRetryF env reloginOk reloginFailedFlag 5 0

/-!
Orchestrator (src/jobs/runner.py).  The per-record pipeline and the
batch flush are embedded by their observable effects on the ledger, the
batch buffer, the GET trace, the sink and the spool.  Counters, metrics
and remote error logging are side channels the checked properties do
not mention and are not part of the observables.
-/

/-- Ledger write performed for one record number. -/
inductive LedgerMark where
  | ok
  | failed (error : String)
  | notFound
deriving Repr

/-- A SaleRecord (src/parse/models.py) as the runner builds it: record
number, status string and dict payload. -/
structure SaleRecord where
  nr : Int
  status : String
  data : JFields

/-- Result dict of the gate function contains_location_vehicule, as the
runner reads it with .get accesses (html_parser.py lines 63-108). -/
structure GateInfo where
  gate_reason : Option String := none
  gate_match_count : Option Int := none
  gate_matched_text : Option String := none

/-- Embedding of get_urls_for_nr (src/fetch/endpoints.py lines 5-14). -/
def get_urls_for_nr (base : String) (nr : Int) : List String :=
  [base ++ "/digi/com/cto/view?nr=" ++ toString nr,
   base ++ "/digi/com/cto/viewLogistic?nr=" ++ toString nr,
   base ++ "/digi/com/cto/viewPayment?nr=" ++ toString nr,
   base ++ "/digi/com/cto/viewInfos?nr=" ++ toString nr,
   base ++ "/digi/com/cto/viewOrders?nr=" ++ toString nr]

/-- Append of a fresh key at the end of a dict, as Python dict
assignment of a new key preserves insertion order. -/
def appendField : JFields → String → JValue → JFields
  | .nil, k, v => .cons k v .nil
  | .cons k0 v0 tl, k, v => .cons k0 v0 (appendField tl k v)

/-- Result of the view-page fetch as _process_single_nr observes it:
either the awaited call raised with some message, or it returned an
optional response. -/
inductive ViewFetch where
  | raised (msg : String)
  | returned (response : Option HResponse)

/-- Observable effects of one _process_single_nr call. -/
structure ProcOutcome where
  ledgerMark : Option (Int × LedgerMark) := none
  appended : Option SaleRecord := none
  deepFetched : Bool := false
  deepUrls : List String := []
  skipped : Bool := false
  raised : Bool := false

/-- The body of _process_single_nr inside its try block (runner.py
lines 217-585), as a fallible computation whose error is the exception
message str(e).  The record payload built when the gate passes (lines
509-526) is taken as a parameter, since the checked properties only
concern its construction site, not its contents. -/
def processCore (devMode failFast : Bool) (viewFetch : ViewFetch)
    (gate : String → Bool × GateInfo) (nr : Int) (base : String)
    (gatePassData : JFields) : Except String ProcOutcome :=
  match viewFetch with
  | .raised msg => .error msg
  | .returned none =>
    if failFast then .error "View page request failed"
    else .ok { ledgerMark := some (nr, .failed "View page request failed") }
  | .returned (some r) =>
    if r.status == 404 then
      .ok { ledgerMark := some (nr, .notFound) }
    else if r.status == 403 && failFast then
      .error "403 Forbidden - authentication failed"
    else
      let g := gate r.body
      if !g.1 then
        let fields0 : JFields :=
          .cons "nr" (.jnum nr)
            (.cons "gate_passed" (.jbool false)
              (.cons "gate_reason" (.jstr (g.2.gate_reason.getD "unknown")) .nil))
        let fields1 :=
          if devMode then
            match g.2.gate_match_count with
            | some cnt => appendField fields0 "gate_match_count" (.jnum cnt)
            | none => fields0
          else fields0
        let fields2 :=
          if devMode then
            match g.2.gate_matched_text with
            | some t => if t == "" then fields1 else appendField fields1 "gate_matched_text" (.jstr t)
            | none => fields1
          else fields1
        let recordData := redact_dict fields2
        .ok { ledgerMark := some (nr, .ok),
              appended := some ⟨nr, "ok", recordData⟩,
              deepFetched := false, deepUrls := [] }
      else
        .ok { ledgerMark := some (nr, .ok),
              appended := some ⟨nr, "ok", redact_dict gatePassData⟩,
              deepFetched := true, deepUrls := get_urls_for_nr base nr }

/-- Embedding of _process_single_nr (runner.py lines 208-623): the
done-check skip, then the try body, whose exceptions are absorbed into
a failed ledger mark with a redacted message; with fail-fast set, an
authentication-flavoured message is re-raised after bookkeeping. -/
def processSingleNr (devMode failFast : Bool) (isDone : Bool) (viewFetch : ViewFetch)
    (gate : String → Bool × GateInfo) (nr : Int) (base : String)
    (gatePassData : JFields) : ProcOutcome :=
  if !devMode && isDone then { skipped := true }
  else
    match processCore devMode failFast viewFetch gate nr base gatePassData with
    | .ok o => o
    | .error msg =>
      { ledgerMark := some (nr, .failed (redact_string msg)),
        raised := failFast && strContains (lowerStr msg) "auth" }

/-- Shared mutable state touched by _flush_buffer: the buffer, the
batch counter, the sink writes, the spool lines keyed by batch file,
the deleted spool files, and the ledger (which flushing never reads or
writes). -/
structure FlushState where
  buffer : List SaleRecord
  batchId : Nat
  sinkWrites : List (String × SaleRecord) := []
  spool : List (Nat × SaleRecord) := []
  deletedBatches : List Nat := []
  ledger : List (Int × LedgerMark) := []

/-- In-place redaction performed before spooling (runner.py line 829). -/
def redactRecordData (r : SaleRecord) : SaleRecord :=
  { r with data := redact_dict r.data }

/-- Embedding of _flush_buffer (runner.py lines 772-830).  The sink is
summarised by failAt: upserting record number j of this flush raises
exactly when failAt = some j, in which case the preceding records were
already upserted and every buffered record of the flush is appended,
redacted, to the single spool file of this batch id; on full success
the spool file of the batch id is deleted.  The except clause absorbs
the sink failure, so flushing always returns to the caller. -/
def flushBuffer (dryRun hasWriter : Bool) (failAt : Option Nat) (runId : String)
    (s : FlushState) : FlushState :=
  if s.buffer.isEmpty then s
  else
    let records := s.buffer
    let s1 := { s with buffer := [], batchId := s.batchId + 1 }
    if dryRun || !hasWriter then s1
    else
      match failAt with
      | some j =>
        if j < records.length then
          { s1 with
              sinkWrites := s1.sinkWrites ++ (records.take j).map (fun r => (runId, r)),
              spool := s1.spool ++ records.map (fun r => (s1.batchId, redactRecordData r)) }
        else
          { s1 with
              sinkWrites := s1.sinkWrites ++ records.map (fun r => (runId, r)),
              deletedBatches := s1.deletedBatches ++ [s1.batchId] }
      | none =>
        { s1 with
            sinkWrites := s1.sinkWrites ++ records.map (fun r => (runId, r)),
            deletedBatches := s1.deletedBatches ++ [s1.batchId] }

/-!
Specification-side predicates.  These follow the wording of the
checked properties, to be compared with the embedded code.
-/

/-- Strong structural login indicators present in a body, following the
claim wording for the login-page detector. -/
def bodyStrongIndicator : Option String → Bool
  | none => false
  | some h => strongLoginPatterns.any (fun p => research p (lowerStr h).toList)

/-- At least two weak-vocabulary phrases present in a body, following
the claim wording for the login-page detector. -/
def bodyWeakIndicators : Option String → Bool
  | none => false
  | some h => decide (2 ≤ weakLoginIndicators.countP (fun w => strContains (lowerStr h) w))

/-- The login-page detector as the claim states it: final URL contains
a login marker, or the status is a redirect to a login location (the
redirect target carrying a login marker), or the body holds a strong
structural indicator, or the body holds at least two weak phrases. -/
def loginPageClaim (responseHtml : Option String) (statusCode : Nat)
    (finalUrl redirectLocation : String) : Bool :=
  loginUrlMarker finalUrl ||
  (statusCode == 302 && loginUrlMarker redirectLocation) ||
  bodyStrongIndicator responseHtml ||
  bodyWeakIndicators responseHtml

/-- Body signals that make the embedded detector fire, used by the
amended characterization: a non-empty body with a strong indicator, or
two weak phrases, or a concurrent-session-conflict body. -/
def bodyLoginSignals : Option String → Bool
  | none => false
  | some h =>
    !(h == "") &&
      (strongLoginPatterns.any (fun p => research p (lowerStr h).toList) ||
       decide (2 ≤ weakLoginIndicators.countP (fun w => strContains (lowerStr h) w)) ||
       is_double_session_popup (some h))

/-- The amended login-page property: the detector fires exactly on any
302 status, a login marker in the final URL, or one of the body
signals. -/
def loginPageClaimAmended (responseHtml : Option String) (statusCode : Nat)
    (finalUrl : String) : Bool :=
  statusCode == 302 || loginUrlMarker finalUrl || bodyLoginSignals responseHtml

/-- Whether a value is exactly the mask token. -/
def isMask : JValue → Bool
  | .jstr s => s == "[REDACTED]"
  | _ => false

mutual
/-- Every value stored under a sensitive key, anywhere in the
structure, is the mask token (value form). -/
def noUnmaskedSensitiveV : JValue → Bool
  | .jobj fs => noUnmaskedSensitiveF fs
  | .jarr xs => noUnmaskedSensitiveL xs
  | _ => true

/-- Every value stored under a sensitive key is the mask token
(list form). -/
def noUnmaskedSensitiveL : JList → Bool
  | .nil => true
  | .cons x tl => noUnmaskedSensitiveV x && noUnmaskedSensitiveL tl

/-- Every value stored under a sensitive key is the mask token
(dict form). -/
def noUnmaskedSensitiveF : JFields → Bool
  | .nil => true
  | .cons k v tl =>
    (!(sensitiveKeys.contains (lowerStr k)) || isMask v) &&
      noUnmaskedSensitiveV v && noUnmaskedSensitiveF tl
end

mutual
/-- Shape restriction of the amended masking property: seen from
redact_json, dicts must satisfy goodF and top-level lists recurse. -/
def goodV : JValue → Bool
  | .jobj fs => goodF fs
  | .jarr xs => goodTopL xs
  | _ => true

/-- Top-level lists, which redact_json recurses through fully. -/
def goodTopL : JList → Bool
  | .nil => true
  | .cons x tl => goodV x && goodTopL tl

/-- Dict contents: every stored value is good in dict-value position. -/
def goodF : JFields → Bool
  | .nil => true
  | .cons _ v tl => goodDictVal v && goodF tl

/-- Values stored in a dict: dicts recurse; list values may hold dicts,
strings and scalars but no list directly inside the list, since
redact_dict walks list values only one level deep. -/
def goodDictVal : JValue → Bool
  | .jobj fs => goodF fs
  | .jarr xs => goodItemsL xs
  | _ => true

/-- Items of a list stored in a dict. -/
def goodItemsL : JList → Bool
  | .nil => true
  | .cons (.jobj fs) tl => goodF fs && goodItemsL tl
  | .cons (.jarr _) _ => false
  | .cons _ tl => goodItemsL tl
end

/-- Status of the record appended by a pipeline run, if any. -/
def appendedStatus (o : ProcOutcome) : Option String :=
  o.appended.map SaleRecord.status

/-- Lookup into the data of the record appended by a pipeline run. -/
def appendedLookup (o : ProcOutcome) (k : String) : Option (Option JValue) :=
  o.appended.map (fun rec => objLookup rec.data k)

/-- Spool lines written for one batch: every record of the flush,
redacted, keyed by the one batch file id. -/
def spoolLines (batchFileId : Nat) (records : List SaleRecord) : List (Nat × SaleRecord) :=
  records.map (fun r => (batchFileId, redactRecordData r))

/-!
Concrete instances used by counterexamples and witnesses.
-/

/-- Ledger with record 1 marked ok and nothing else stored. -/
def dbW : Int → Option PStatus := fun n => if n == 1 then some PStatus.ok else none

/-- RunControl configured with only a consecutive-error cap of two. -/
def rcW : RunControl := { max_consecutive_errors := some 2 }

/-- Response stream that always returns HTTP 500 with an empty body. -/
def env500 : Nat → GetOutcome :=
  fun _ => .got ⟨500, "", "https://example.com/resource"⟩

/-- Response stream where every GET times out. -/
def envTimeout : Nat → GetOutcome := fun _ => .timedOut

/-- A response body that the double-session detector accepts: it holds
two of the conflict-indicator phrases. -/
def dsBodyW : String := "double session: session en trop"

/-- Response stream that always returns the double-session body. -/
def envDSW : Nat → GetOutcome :=
  fun _ => .got ⟨200, dsBodyW, "https://example.com/resource"⟩

/-- Gate function that always fails with an empty reason dict. -/
def gateFailW : String → Bool × GateInfo := fun _ => (false, {})

/-- Nested value whose sensitive entry hides behind a list inside a
list below a mapping. -/
def ceC4 : JValue :=
  .jobj (.cons "a"
    (.jarr (.cons (.jarr (.cons (.jobj (.cons "gmKey" (.jstr "secret") .nil)) .nil)) .nil))
    .nil)

/-- Value whose sensitive entry sits in a nested config mapping. -/
def vGoodW : JValue :=
  .jobj (.cons "config" (.jobj (.cons "gmKey" (.jstr "secret") .nil)) .nil)

/-- Two-record buffer state before a flush. -/
def sFlushW : FlushState :=
  { buffer :=
      [⟨52001, "ok", .cons "nr" (.jnum 52001) (.cons "access_token" (.jstr "tok-1") .nil)⟩,
       ⟨52002, "ok", .cons "nr" (.jnum 52002) .nil⟩],
    batchId := 7,
    ledger := [(52001, .ok), (52002, .ok)] }

/-- Whether every character of a string belongs to the base64 alphabet. -/
def allB64Alphabet (s : String) : Bool :=
  s.toList.all (fun c => (b64charVal c).isSome)

/-!
Theorems.
-/

/-- C1: the claim says a response status in the retryable set
429/500/502/503/504 is retried by the retry wrapper with backoff up to
five attempts, the same way timeouts and connection errors are.  The
code contradicts this: raise_for_status turns a retryable status into
an HTTPStatusError, but the tenacity predicate retries only
TimeoutException and NetworkError, so the error surfaces after a
single attempt with a single GET, while a stream of timeouts is indeed
retried through all five attempts.  The function is named
is_retryable_status and the spec states the retry intent, so this is a
slip in the code. -/
theorem fetch_retryable_status_not_retried :
    fetch env500 true false = (.error (.httpStatusExc 500), 1, 1) ∧
    fetch envTimeout true false = (.error .timeoutExc, 5, 5) :=
  ⟨rfl, rfl⟩

/-- C9: when the first GET body matches the concurrent-session-conflict
detector and the body of the retried GET after recovery matches it
again, fetch surfaces the distinct double-session error, has consumed
exactly two GET responses (one recovery retry), and the retry wrapper
performs no further attempts. -/
theorem fetch_double_session_persists (env : Nat → GetOutcome) (r1 r2 : HResponse)
    (reloginOk reloginFailedFlag : Bool)
    (h0 : env 0 = .got r1) (h1 : env 1 = .got r2)
    (hd1 : is_double_session_popup (some r1.body) = true)
    (hd2 : is_double_session_popup (some r2.body) = true) :
    fetch env reloginOk reloginFailedFlag = (.error .doubleSessionPersists, 2, 1) := by
  have hstep : fetchAttempt env reloginOk reloginFailedFlag 0 =
      (.error .doubleSessionPersists, 2) := by
    unfold fetchAttempt
    rw [h0]
    simp [hd1, h1, hd2]
  unfold fetch fetchRetryF
  rw [hstep]
  simp

/-- Witness for C9 at a concrete conflict body. -/
theorem fetch_double_session_persists_witness :
    is_double_session_popup (some dsBodyW) = true ∧
    fetch envDSW true false = (.error .doubleSessionPersists, 2, 1) :=
  ⟨by decide,
   fetch_double_session_persists envDSW ⟨200, dsBodyW, "https://example.com/resource"⟩
     ⟨200, dsBodyW, "https://example.com/resource"⟩ true false rfl rfl
     (by decide) (by decide)⟩

/-- C7 counterexample: the claim quantifies over every base64 string
whose length is not a multiple of four, but a single data character,
as in the input A of length one, still fails after re-padding, because
one data character more than a multiple of four is not decodable. -/
theorem decode_base64_safe_remainder_one :
    (decode_base64_safe "A").isOk = false ∧ "A".length % 4 = 1 :=
  ⟨rfl, rfl⟩

/-- Helper: byte assembly succeeds exactly when the count of data
characters is not one more than a multiple of four. -/
theorem b64chunks_isOk : ∀ l : List Nat, l.length % 4 ≠ 1 → (b64chunks l).isOk = true
  | [], _ => rfl
  | [_], h => absurd (by simp) h
  | [_, _], _ => rfl
  | [_, _, _], _ => rfl
  | a :: b :: c :: d :: rest, h => by
    have hr : rest.length % 4 ≠ 1 := by
      simp only [List.length_cons] at h
      omega
    have ih := b64chunks_isOk rest hr
    unfold b64chunks
    cases hres : b64chunks rest with
    | ok bs => rfl
    | error e => rw [hres] at ih; exact ih

/-- Helper: filterMap drops nothing on a list of characters that all
have a value. -/
theorem filterMap_length_of_all {f : Char → Option Nat} :
    ∀ l : List Char, l.all (fun c => (f c).isSome) = true →
      (l.filterMap f).length = l.length := by
  intro l h
  induction l with
  | nil => simp
  | cons c tl ih =>
    simp only [List.all_cons, Bool.and_eq_true] at h
    cases hc : f c with
    | some v => simp [List.filterMap_cons, hc, ih h.2]
    | none => rw [hc] at h; simp [Option.isSome] at h

/-- Helper: filterMap of a replicated valueless character is empty. -/
theorem filterMap_replicate_none {f : Char → Option Nat} {a : Char}
    (hf : f a = none) : ∀ k : Nat, (List.replicate k a).filterMap f = [] := by
  intro k
  induction k with
  | zero => simp
  | succ k ih => simp [List.replicate_succ, List.filterMap_cons, hf, ih]

/-- C7 amended: for every input over the base64 alphabet whose length
leaves remainder two or three modulo four — the shapes a real base64
body with stripped padding can have — decode_base64_safe re-pads and
the decode succeeds. -/
theorem decode_base64_safe_missing_padding (s : String)
    (halpha : allB64Alphabet s = true)
    (hlen : s.length % 4 = 2 ∨ s.length % 4 = 3) :
    (decode_base64_safe s).isOk = true := by
  have hmiss : s.length % 4 ≠ 0 := by omega
  have hdata : (String.mk (List.replicate (4 - s.length % 4) '=')).toList.filterMap b64charVal = [] := by
    have : b64charVal '=' = none := rfl
    exact filterMap_replicate_none this _
  have hslen : s.toList.length = s.length := rfl
  have hlen2 : ((s ++ String.mk (List.replicate (4 - s.length % 4) '=')).toList.filterMap b64charVal).length % 4 ≠ 1 := by
    have happ : (s ++ String.mk (List.replicate (4 - s.length % 4) '=')).toList
        = s.toList ++ (String.mk (List.replicate (4 - s.length % 4) '=')).toList := by
      simp [String.toList, String.data_append]
    rw [happ, List.filterMap_append, hdata, List.append_nil]
    rw [filterMap_length_of_all s.toList halpha, hslen]
    omega
  unfold decode_base64_safe b64decode
  simp only [hmiss, ne_eq, not_false_eq_true, if_true]
  exact b64chunks_isOk _ hlen2

/-- Witness for C7 amended at the stripped encoding of one byte. -/
theorem decode_base64_safe_missing_padding_witness :
    allB64Alphabet "QQ" = true ∧ "QQ".length % 4 = 2 ∧
    (decode_base64_safe "QQ").isOk = true :=
  ⟨by decide, by decide,
   decode_base64_safe_missing_padding "QQ" (by decide) (Or.inl (by decide))⟩

/-- Helper: list containment agrees with membership on integers. -/
theorem contains_iff_memInt {l : List Int} {x : Int} : l.contains x = true ↔ x ∈ l := by
  constructor
  · intro h
    exact List.mem_of_elem_eq_true h
  · intro h
    exact List.elem_eq_true_of_mem h

/-- Helper: membership in the ascending integer range. -/
theorem mem_rangeInts {a b n : Int} : n ∈ rangeInts a b ↔ a ≤ n ∧ n ≤ b := by
  unfold rangeInts
  rw [List.mem_map]
  constructor
  · rintro ⟨i, hi, hn⟩
    rw [List.mem_range] at hi
    omega
  · rintro ⟨h1, h2⟩
    refine ⟨(n - a).toNat, ?_, ?_⟩
    · rw [List.mem_range]
      omega
    · omega

/-- Helper: the ascending integer range is sorted strictly. -/
theorem sorted_rangeInts (a b : Int) : (rangeInts a b).Sorted (· < ·) := by
  have h := List.pairwise_lt_range (b + 1 - a).toNat
  have h2 : ((List.range (b + 1 - a).toNat).map (fun i : Nat => a + (i : Int))).Pairwise
      (· < ·) :=
    List.Pairwise.map _ (fun i j hij => by omega) h
  exact h2

/-- C5: for every pair of bounds a ≤ b and every ledger state,
get_next_undone returns exactly the integers of the closed interval
whose stored status is not ok — absent rows, failed rows and not_found
rows included — in ascending order without duplicates. -/
theorem get_next_undone_spec (db : Int → Option PStatus) (a b : Int) (hab : a ≤ b) :
    (∀ n : Int, n ∈ get_next_undone db a b ↔ a ≤ n ∧ n ≤ b ∧ db n ≠ some PStatus.ok)
    ∧ (get_next_undone db a b).Sorted (· < ·)
    ∧ (get_next_undone db a b).Nodup := by
  have hmem : ∀ n : Int, n ∈ get_next_undone db a b ↔
      a ≤ n ∧ n ≤ b ∧ db n ≠ some PStatus.ok := by
    intro n
    simp only [get_next_undone]
    constructor
    · intro hmem0
      rw [List.mem_filter] at hmem0
      obtain ⟨hall, hnot⟩ := hmem0
      have hrange := mem_rangeInts.mp hall
      refine ⟨hrange.1, hrange.2, ?_⟩
      intro hok
      have hin : n ∈ (rangeInts a b).filter (fun k => db k == some PStatus.ok) := by
        rw [List.mem_filter]
        exact ⟨hall, by simp [hok]⟩
      rw [contains_iff_memInt.mpr hin] at hnot
      simp at hnot
    · rintro ⟨h1, h2, h3⟩
      rw [List.mem_filter]
      refine ⟨mem_rangeInts.mpr ⟨h1, h2⟩, ?_⟩
      cases hc : ((rangeInts a b).filter (fun k => db k == some PStatus.ok)).contains n with
      | false => rfl
      | true =>
        exfalso
        have hin := contains_iff_memInt.mp hc
        rw [List.mem_filter] at hin
        exact h3 (by simpa using hin.2)
  have hsorted : (get_next_undone db a b).Sorted (· < ·) := by
    simp only [get_next_undone]
    exact (sorted_rangeInts a b).filter _
  exact ⟨hmem, hsorted, hsorted.nodup⟩

/-- Witness for C5 on a ledger with record 1 marked ok. -/
theorem get_next_undone_spec_witness :
    get_next_undone dbW 1 3 = [2, 3] ∧
    (2 ∈ get_next_undone dbW 1 3 ↔ (1 : Int) ≤ 2 ∧ (2 : Int) ≤ 3 ∧ dbW 2 ≠ some PStatus.ok) :=
  ⟨by decide, (get_next_undone_spec dbW 1 3 (by decide)).1 2⟩

/-- Helper: one record_error call bumps both error counters and keeps
the configured thresholds and the gated counter. -/
theorem record_error_fields (rc : RunControl) (c : Option Int) :
    (record_error rc c).consecutive_errors = rc.consecutive_errors + 1 ∧
    (record_error rc c).error_count = rc.error_count + 1 ∧
    (record_error rc c).max_consecutive_errors = rc.max_consecutive_errors ∧
    (record_error rc c).limit_gated = rc.limit_gated ∧
    (record_error rc c).stop_after_minutes = rc.stop_after_minutes ∧
    (record_error rc c).max_errors = rc.max_errors ∧
    (record_error rc c).max_403 = rc.max_403 ∧
    (record_error rc c).max_429 = rc.max_429 ∧
    (record_error rc c).gated_count = rc.gated_count := by
  unfold record_error
  split
  · simp
  · split <;> simp

/-- Helper: a fold of record_error calls advances the consecutive-error
streak by the number of calls and keeps the thresholds. -/
theorem foldl_record_error_fields (codes : List (Option Int)) (rc : RunControl) :
    (codes.foldl record_error rc).consecutive_errors
        = rc.consecutive_errors + codes.length ∧
    (codes.foldl record_error rc).max_consecutive_errors = rc.max_consecutive_errors := by
  induction codes generalizing rc with
  | nil => simp
  | cons c tl ih =>
    have h1 := record_error_fields rc c
    have h2 := ih (record_error rc c)
    simp only [List.foldl_cons, List.length_cons]
    refine ⟨?_, ?_⟩
    · rw [h2.1, h1.1]; omega
    · rw [h2.2, h1.2.2.1]

/-- C6: with a positive consecutive-error cap configured and no other
threshold triggered, the cap-many record_error calls with no intervening
record_success make should_stop return true with the consecutive-error
reason, and one record_success resets the streak so that should_stop is
quiet again. -/
theorem runcontrol_consecutive_spec (rc : RunControl) (m : Int)
    (codes : List (Option Int)) (elapsed : Int)
    (hm : rc.max_consecutive_errors = some m) (hmpos : 0 < m)
    (hlen : (codes.length : Int) = m) (hstart : rc.consecutive_errors = 0)
    (h1 : trigGated (codes.foldl record_error rc) = false)
    (h2 : trigTime (codes.foldl record_error rc) elapsed = false)
    (h3 : trigErrors (codes.foldl record_error rc) = false)
    (h4 : trig403 (codes.foldl record_error rc) = false)
    (h5 : trig429 (codes.foldl record_error rc) = false) :
    should_stop (codes.foldl record_error rc) elapsed =
      (true, some ("Reached max_consecutive_errors=" ++ toString m))
    ∧ should_stop (record_success (codes.foldl record_error rc)) elapsed = (false, none) := by
  have hfold := foldl_record_error_fields codes rc
  have hmax : (codes.foldl record_error rc).max_consecutive_errors = some m := by
    rw [hfold.2, hm]
  have hcons : (codes.foldl record_error rc).consecutive_errors = m := by
    rw [hfold.1, hstart]; omega
  have htrig : trigConsec (codes.foldl record_error rc) = true := by
    unfold trigConsec pyTruthy
    rw [hmax, hcons]
    simp
    omega
  constructor
  · unfold should_stop
    rw [h1, h2, h3, htrig]
    simp [hmax]
  · have hg : trigGated (record_success (codes.foldl record_error rc))
        = trigGated (codes.foldl record_error rc) := by
      simp [record_success, trigGated]
    have ht : trigTime (record_success (codes.foldl record_error rc)) elapsed
        = trigTime (codes.foldl record_error rc) elapsed := by
      simp [record_success, trigTime]
    have he : trigErrors (record_success (codes.foldl record_error rc))
        = trigErrors (codes.foldl record_error rc) := by
      simp [record_success, trigErrors]
    have h403 : trig403 (record_success (codes.foldl record_error rc))
        = trig403 (codes.foldl record_error rc) := by
      simp [record_success, trig403]
    have h429 : trig429 (record_success (codes.foldl record_error rc))
        = trig429 (codes.foldl record_error rc) := by
      simp [record_success, trig429]
    have hc : trigConsec (record_success (codes.foldl record_error rc)) = false := by
      unfold trigConsec pyTruthy
      simp [record_success, hmax]
      omega
    unfold should_stop
    rw [hg, ht, he, h403, h429, hc, h1, h2, h3, h4, h5]
    simp

/-- Witness for C6 with a cap of two and two anonymous errors. -/
theorem runcontrol_consecutive_spec_witness :
    should_stop ([none, none].foldl record_error rcW) 0 =
      (true, some "Reached max_consecutive_errors=2")
    ∧ should_stop (record_success ([none, none].foldl record_error rcW)) 0 = (false, none) :=
  runcontrol_consecutive_spec rcW 2 [none, none] 0 rfl (by decide) (by decide) rfl
    (by decide) (by decide) (by decide) (by decide) (by decide)

/-- C10: when the sink upsert raises partway through a flush performed
with a writer and outside dry-run, every record buffered for that flush
is appended in redacted form to the one spool file named for this
batch id, the buffer is emptied (nothing lost, nothing re-flushed), the
flush returns normally, no spool file is deleted, and the ledger is
untouched by the sink failure. -/
theorem flush_sink_failure_spools (j : Nat) (runId : String) (s : FlushState)
    (hj : j < s.buffer.length) :
    (flushBuffer false true (some j) runId s).spool
        = s.spool ++ spoolLines (s.batchId + 1) s.buffer
    ∧ (flushBuffer false true (some j) runId s).buffer = []
    ∧ (flushBuffer false true (some j) runId s).ledger = s.ledger
    ∧ (flushBuffer false true (some j) runId s).batchId = s.batchId + 1
    ∧ (flushBuffer false true (some j) runId s).deletedBatches = s.deletedBatches := by
  have hne : s.buffer.isEmpty = false := by
    cases hb : s.buffer with
    | nil => rw [hb] at hj; simp at hj
    | cons x tl => rfl
  unfold flushBuffer
  rw [hne]
  simp [hj, spoolLines]

/-- Witness for C10 on a two-record buffer whose first upsert raises. -/
theorem flush_sink_failure_spools_witness :
    0 < sFlushW.buffer.length ∧
    ((flushBuffer false true (some 0) "run-1" sFlushW).spool
        = sFlushW.spool ++ spoolLines (sFlushW.batchId + 1) sFlushW.buffer
      ∧ (flushBuffer false true (some 0) "run-1" sFlushW).buffer = []
      ∧ (flushBuffer false true (some 0) "run-1" sFlushW).ledger = sFlushW.ledger
      ∧ (flushBuffer false true (some 0) "run-1" sFlushW).batchId = sFlushW.batchId + 1
      ∧ (flushBuffer false true (some 0) "run-1" sFlushW).deletedBatches
          = sFlushW.deletedBatches) :=
  ⟨by decide, flush_sink_failure_spools 0 "run-1" sFlushW (by decide)⟩

/-- Helper: updating one key leaves lookups of other keys unchanged. -/
theorem objLookup_objSet_ne : ∀ (fs : JFields) (v : JValue) (setKey lookKey : String),
    setKey ≠ lookKey →
    objLookup (objSet fs setKey v) lookKey = objLookup fs lookKey
  | .nil, _, _, _, _ => rfl
  | .cons k0 v0 tl, v, setKey, lookKey, h => by
    unfold objSet
    cases hks : (k0 == setKey) with
    | true =>
      have hk0 : k0 = setKey := eq_of_beq hks
      cases hkl : (k0 == lookKey) with
      | true =>
        exact absurd (hk0 ▸ eq_of_beq hkl) h
      | false =>
        simp only [if_true]
        unfold objLookup
        rw [hkl]
        simp
    | false =>
      simp only [Bool.false_eq_true, if_false]
      unfold objLookup
      cases hkl : (k0 == lookKey) with
      | true => rfl
      | false => exact objLookup_objSet_ne tl v setKey lookKey h

/-- Helper: the nested-config pass leaves lookups of keys other than
config unchanged. -/
theorem objLookup_fixConfig_ne (fs : JFields) (k : String) (h : k ≠ "config") :
    objLookup (fixConfig fs) k = objLookup fs k := by
  unfold fixConfig
  cases hcfg : objLookup fs "config" with
  | none => rfl
  | some v =>
    cases v with
    | jobj cfs =>
      cases hgm : (objLookup cfs "gmKey").isSome with
      | true =>
        simp only [hgm, if_true]
        exact objLookup_objSet_ne fs _ "config" k (fun he => h he.symm)
      | false =>
        simp only [hgm, Bool.false_eq_true, if_false]
    | jnull => rfl
    | jbool b => rfl
    | jnum n => rfl
    | jstr s => rfl
    | jarr xs => rfl

/-- Helper: the nested-config pass preserves absent keys. -/
theorem objLookup_fixConfig_none (fs : JFields) (k : String)
    (h : objLookup fs k = none) :
    objLookup (fixConfig fs) k = none := by
  by_cases hk : k = "config"
  · subst hk
    unfold fixConfig
    rw [h]
    exact h
  · rw [objLookup_fixConfig_ne fs k hk]
    exact h

/-- Helper: the redaction loop preserves absent keys. -/
theorem objLookup_redactFields_none : ∀ (fs : JFields) (k : String),
    objLookup fs k = none →
    objLookup (redactFields fs) k = none
  | .nil, _, _ => rfl
  | .cons k0 v0 tl, k, h => by
    unfold objLookup at h
    unfold redactFields objLookup
    cases hk : (k0 == k) with
    | true => rw [hk] at h; exact absurd h (by simp)
    | false => rw [hk] at h; exact objLookup_redactFields_none tl k h

/-- Helper: the redaction loop keeps a boolean value stored under a
non-sensitive key. -/
theorem objLookup_redactFields_bool : ∀ (fs : JFields) (k : String) (b : Bool),
    objLookup fs k = some (.jbool b) →
    sensitiveKeys.contains (lowerStr k) = false →
    objLookup (redactFields fs) k = some (.jbool b)
  | .nil, k, b, h, _ => absurd h (by simp [objLookup])
  | .cons k0 v0 tl, k, b, h, hsens => by
    unfold objLookup at h
    unfold redactFields objLookup
    cases hk : (k0 == k) with
    | true =>
      rw [hk] at h
      simp only [if_true] at h
      have hv0 : v0 = JValue.jbool b := by
        cases h; rfl
      have hk0 : k0 = k := eq_of_beq hk
      subst hv0
      subst hk0
      rw [hsens]
      rfl
    | false =>
      rw [hk] at h
      simp only [Bool.false_eq_true, if_false] at h
      exact objLookup_redactFields_bool tl k b h hsens

/-- Helper: redact_dict preserves absent keys. -/
theorem objLookup_redact_dict_none (fs : JFields) (k : String)
    (h : objLookup fs k = none) :
    objLookup (redact_dict fs) k = none :=
  objLookup_fixConfig_none _ _ (objLookup_redactFields_none _ _ h)

/-- Helper: redact_dict keeps a boolean value stored under a
non-sensitive key other than config. -/
theorem objLookup_redact_dict_bool (fs : JFields) (k : String) (b : Bool)
    (h : objLookup fs k = some (.jbool b))
    (hsens : sensitiveKeys.contains (lowerStr k) = false)
    (hk : k ≠ "config") :
    objLookup (redact_dict fs) k = some (.jbool b) := by
  unfold redact_dict
  rw [objLookup_fixConfig_ne _ k hk]
  exact objLookup_redactFields_bool fs k b h hsens

/-- Helper: appending a fresh key leaves other lookups unchanged. -/
theorem objLookup_appendField_ne : ∀ (fs : JFields) (v : JValue) (addKey k : String),
    (addKey == k) = false →
    objLookup (appendField fs addKey v) k = objLookup fs k
  | .nil, v, addKey, k, h => by
    unfold appendField objLookup
    rw [h]
    rfl
  | .cons k0 v0 tl, v, addKey, k, h => by
    unfold appendField objLookup
    cases hk : (k0 == k) with
    | true => rfl
    | false => exact objLookup_appendField_ne tl v addKey k h

/-- Helper: in the gate-fail branch, the try body of _process_single_nr
builds a minimal record whose dict holds gate_passed false and no pages
key, marks the record ok, and triggers no deep fetch. -/
theorem processCore_gate_fail (devMode failFast : Bool) (r : HResponse)
    (gate : String → Bool × GateInfo) (nr : Int) (base : String) (gatePassData : JFields)
    (h404 : r.status ≠ 404)
    (h403 : r.status ≠ 403 ∨ failFast = false)
    (hgate : (gate r.body).1 = false) :
    ∃ fields2 : JFields,
      processCore devMode failFast (.returned (some r)) gate nr base gatePassData =
        .ok { ledgerMark := some (nr, .ok),
              appended := some ⟨nr, "ok", redact_dict fields2⟩,
              deepFetched := false, deepUrls := [] }
      ∧ objLookup fields2 "gate_passed" = some (.jbool false)
      ∧ objLookup fields2 "pages" = none := by
  have hb404 : (r.status == 404) = false := by
    simpa using h404
  have hb403 : (r.status == 403 && failFast) = false := by
    rcases h403 with h | h
    · have hb : (r.status == 403) = false := by simpa using h
      rw [hb]
      rfl
    · rw [h]
      simp
  unfold processCore
  simp only [hb404, hb403, Bool.false_eq_true, if_false, hgate, Bool.not_false, if_true]
  refine ⟨_, rfl, ?_, ?_⟩
  · -- gate_passed lookup through the optional dev fields
    cases devMode with
    | false =>
      simp only [Bool.false_eq_true, if_false]
      rfl
    | true =>
      simp only [if_true]
      cases (gate r.body).2.gate_match_count with
      | none =>
        cases (gate r.body).2.gate_matched_text with
        | none => rfl
        | some t =>
          cases ht : (t == "") with
          | true => simp only [ht, if_true]; rfl
          | false =>
            simp only [ht, Bool.false_eq_true, if_false]
            rw [objLookup_appendField_ne _ _ "gate_matched_text" "gate_passed" (by decide)]
            rfl
      | some cnt =>
        cases (gate r.body).2.gate_matched_text with
        | none =>
          rw [objLookup_appendField_ne _ _ "gate_match_count" "gate_passed" (by decide)]
          rfl
        | some t =>
          cases ht : (t == "") with
          | true =>
            simp only [ht, if_true]
            rw [objLookup_appendField_ne _ _ "gate_match_count" "gate_passed" (by decide)]
            rfl
          | false =>
            simp only [ht, Bool.false_eq_true, if_false]
            rw [objLookup_appendField_ne _ _ "gate_matched_text" "gate_passed" (by decide),
              objLookup_appendField_ne _ _ "gate_match_count" "gate_passed" (by decide)]
            rfl
  · cases devMode with
    | false =>
      simp only [Bool.false_eq_true, if_false]
      rfl
    | true =>
      simp only [if_true]
      cases (gate r.body).2.gate_match_count with
      | none =>
        cases (gate r.body).2.gate_matched_text with
        | none => rfl
        | some t =>
          cases ht : (t == "") with
          | true => simp only [ht, if_true]; rfl
          | false =>
            simp only [ht, Bool.false_eq_true, if_false]
            rw [objLookup_appendField_ne _ _ "gate_matched_text" "pages" (by decide)]
            rfl
      | some cnt =>
        cases (gate r.body).2.gate_matched_text with
        | none =>
          rw [objLookup_appendField_ne _ _ "gate_match_count" "pages" (by decide)]
          rfl
        | some t =>
          cases ht : (t == "") with
          | true =>
            simp only [ht, if_true]
            rw [objLookup_appendField_ne _ _ "gate_match_count" "pages" (by decide)]
            rfl
          | false =>
            simp only [ht, Bool.false_eq_true, if_false]
            rw [objLookup_appendField_ne _ _ "gate_matched_text" "pages" (by decide),
              objLookup_appendField_ne _ _ "gate_match_count" "pages" (by decide)]
            rfl

/-- C2 counterexample: with fail-fast configured and a 403 view
response, the pipeline raises before the gate runs, so even though the
response is present, not a 404, and the gate fails on its body, no
record is appended and the ledger marks the id failed, not ok; the
claim as stated does not carve out this path. -/
theorem process_403_failfast_no_record :
    (gateFailW "irrelevant").1 = false
    ∧ (processSingleNr false true false
        (.returned (some ⟨403, "irrelevant", "https://example.com/view"⟩))
        gateFailW 52001 "https://example.com" .nil).appended = none
    ∧ (processSingleNr false true false
        (.returned (some ⟨403, "irrelevant", "https://example.com/view"⟩))
        gateFailW 52001 "https://example.com" .nil).ledgerMark
        = some (52001, .failed "403 Forbidden - authentication failed")
    ∧ (processSingleNr false true false
        (.returned (some ⟨403, "irrelevant", "https://example.com/view"⟩))
        gateFailW 52001 "https://example.com" .nil).raised = true :=
  ⟨rfl, rfl, rfl, rfl⟩

/-- C2 amended: for every record id whose main view page fetch succeeds
(non-404, non-None) and whose gate check fails, provided the id is not
skipped as already done and fail-fast mode is not tripped by a 403
status, the record appended to the batch buffer has status ok and
gate_passed false in its data, contains no pages key, deep extraction
is skipped entirely with no secondary fetches, and the ledger marks the
id ok. -/
theorem process_gate_fail_spec (devMode failFast isDone : Bool) (r : HResponse)
    (gate : String → Bool × GateInfo) (nr : Int) (base : String) (gatePassData : JFields)
    (hskip : devMode = true ∨ isDone = false)
    (h404 : r.status ≠ 404)
    (h403 : r.status ≠ 403 ∨ failFast = false)
    (hgate : (gate r.body).1 = false) :
    appendedStatus (processSingleNr devMode failFast isDone (.returned (some r))
        gate nr base gatePassData) = some "ok"
    ∧ appendedLookup (processSingleNr devMode failFast isDone (.returned (some r))
        gate nr base gatePassData) "gate_passed" = some (some (.jbool false))
    ∧ appendedLookup (processSingleNr devMode failFast isDone (.returned (some r))
        gate nr base gatePassData) "pages" = some none
    ∧ (processSingleNr devMode failFast isDone (.returned (some r))
        gate nr base gatePassData).ledgerMark = some (nr, .ok)
    ∧ (processSingleNr devMode failFast isDone (.returned (some r))
        gate nr base gatePassData).deepFetched = false
    ∧ (processSingleNr devMode failFast isDone (.returned (some r))
        gate nr base gatePassData).deepUrls = [] := by
  obtain ⟨fields2, hcore, hgp, hpg⟩ :=
    processCore_gate_fail devMode failFast r gate nr base gatePassData h404 h403 hgate
  have hskipb : (!devMode && isDone) = false := by
    rcases hskip with h | h
    · rw [h]
      rfl
    · rw [h]
      simp
  unfold processSingleNr
  rw [hskipb]
  simp only [Bool.false_eq_true, if_false]
  rw [hcore]
  refine ⟨rfl, ?_, ?_, rfl, rfl, rfl⟩
  · show some (objLookup (redact_dict fields2) "gate_passed") = some (some (.jbool false))
    rw [objLookup_redact_dict_bool fields2 "gate_passed" false hgp (by decide) (by decide)]
  · show some (objLookup (redact_dict fields2) "pages") = some none
    rw [objLookup_redact_dict_none fields2 "pages" hpg]

/-- Witness for C2 amended on a gate-failing 200 response. -/
theorem process_gate_fail_spec_witness :
    (gateFailW "no vehicle content").1 = false
    ∧ appendedStatus (processSingleNr false false false
        (.returned (some ⟨200, "no vehicle content", "https://example.com/view"⟩))
        gateFailW 52001 "https://example.com" .nil) = some "ok"
    ∧ appendedLookup (processSingleNr false false false
        (.returned (some ⟨200, "no vehicle content", "https://example.com/view"⟩))
        gateFailW 52001 "https://example.com" .nil) "gate_passed"
        = some (some (.jbool false))
    ∧ appendedLookup (processSingleNr false false false
        (.returned (some ⟨200, "no vehicle content", "https://example.com/view"⟩))
        gateFailW 52001 "https://example.com" .nil) "pages" = some none
    ∧ (processSingleNr false false false
        (.returned (some ⟨200, "no vehicle content", "https://example.com/view"⟩))
        gateFailW 52001 "https://example.com" .nil).ledgerMark = some (52001, .ok)
    ∧ (processSingleNr false false false
        (.returned (some ⟨200, "no vehicle content", "https://example.com/view"⟩))
        gateFailW 52001 "https://example.com" .nil).deepFetched = false :=
  ⟨rfl,
   (process_gate_fail_spec false false false _ gateFailW 52001 "https://example.com" .nil
      (Or.inr rfl) (by decide) (Or.inl (by decide)) rfl).1,
   (process_gate_fail_spec false false false _ gateFailW 52001 "https://example.com" .nil
      (Or.inr rfl) (by decide) (Or.inl (by decide)) rfl).2.1,
   (process_gate_fail_spec false false false _ gateFailW 52001 "https://example.com" .nil
      (Or.inr rfl) (by decide) (Or.inl (by decide)) rfl).2.2.1,
   (process_gate_fail_spec false false false _ gateFailW 52001 "https://example.com" .nil
      (Or.inr rfl) (by decide) (Or.inl (by decide)) rfl).2.2.2.1,
   (process_gate_fail_spec false false false _ gateFailW 52001 "https://example.com" .nil
      (Or.inr rfl) (by decide) (Or.inl (by decide)) rfl).2.2.2.2.1⟩

/-- C8 counterexample: the embedded detector returns true on any 302
response, even when the redirect target and final URL carry no login
marker and there is no body, while the claimed characterization (URL
marker, redirect to a login location, strong indicator, or two weak
phrases) is false there; the detector also fires on a double-session
body, a disjunct the claim does not list. -/
theorem is_login_page_vs_claim :
    is_login_page none 302 "https://example.com/home" = true
    ∧ loginPageClaim none 302 "https://example.com/home" "https://example.com/home" = false :=
  ⟨rfl, by decide⟩

/-- C8 amended: the detector returns true exactly when the status is
302 (any redirect, the location being checked separately), or the
final URL contains a login marker, or the body is present, non-empty
and carries a strong structural indicator, at least two weak phrases,
or a concurrent-session-conflict signal. -/
theorem is_login_page_characterization (responseHtml : Option String) (statusCode : Nat)
    (finalUrl : String) :
    is_login_page responseHtml statusCode finalUrl =
      loginPageClaimAmended responseHtml statusCode finalUrl := by
  unfold is_login_page loginPageClaimAmended bodyLoginSignals
  cases responseHtml with
  | none =>
    cases hs : (statusCode == 302) with
    | true => simp only [hs]; rfl
    | false =>
      cases hm : loginUrlMarker finalUrl with
      | true => simp only [hs, hm]; rfl
      | false => simp only [hs, hm]; rfl
  | some h =>
    cases hs : (statusCode == 302) with
    | true => simp only [hs]; rfl
    | false =>
      cases hm : loginUrlMarker finalUrl with
      | true => simp only [hs, hm]; rfl
      | false =>
        cases he : (h == "") with
        | true => simp only [hs, hm, he]; rfl
        | false =>
          cases hstrong : (strongLoginPatterns.any fun p => research p (lowerStr h).toList) with
          | true => simp only [hs, hm, he, hstrong]; rfl
          | false =>
            cases hweak :
                decide (2 ≤ weakLoginIndicators.countP fun w => strContains (lowerStr h) w) with
            | true => simp only [hs, hm, he, hstrong, hweak]; rfl
            | false => simp only [hs, hm, he, hstrong, hweak]; rfl

/-- Helper: a stored value of a dict that satisfies the masking
property satisfies it as well. -/
theorem noUF_lookup : ∀ (fs : JFields) (k : String) (v : JValue),
    noUnmaskedSensitiveF fs = true → objLookup fs k = some v →
    noUnmaskedSensitiveV v = true
  | .nil, _, _, _, hl => by simp [objLookup] at hl
  | .cons k0 v0 tl, k, v, h, hl => by
    unfold noUnmaskedSensitiveF at h
    simp only [Bool.and_eq_true] at h
    unfold objLookup at hl
    cases hk : (k0 == k) with
    | true =>
      rw [hk] at hl
      simp only [if_true] at hl
      cases hl
      exact h.1.2
    | false =>
      rw [hk] at hl
      simp only [Bool.false_eq_true, if_false] at hl
      exact noUF_lookup tl k v h.2 hl

/-- Helper: overwriting a key with a conforming value preserves the
masking property. -/
theorem noUF_objSet : ∀ (fs : JFields) (key : String) (v : JValue),
    noUnmaskedSensitiveF fs = true → noUnmaskedSensitiveV v = true →
    (sensitiveKeys.contains (lowerStr key) = true → isMask v = true) →
    noUnmaskedSensitiveF (objSet fs key v) = true
  | .nil, _, _, _, _, _ => rfl
  | .cons k0 v0 tl, key, v, h, hv, hmask => by
    unfold noUnmaskedSensitiveF at h
    simp only [Bool.and_eq_true] at h
    unfold objSet
    cases hk : (k0 == key) with
    | true =>
      have hk0 : k0 = key := eq_of_beq hk
      simp only [if_true]
      unfold noUnmaskedSensitiveF
      simp only [Bool.and_eq_true]
      refine ⟨⟨?_, hv⟩, h.2⟩
      subst hk0
      cases hsens : sensitiveKeys.contains (lowerStr k0) with
      | true => simp [hmask hsens]
      | false => simp
    | false =>
      simp only [Bool.false_eq_true, if_false]
      unfold noUnmaskedSensitiveF
      simp only [Bool.and_eq_true]
      exact ⟨h.1, noUF_objSet tl key v h.2 hv hmask⟩

/-- Helper: the nested-config pass preserves the masking property. -/
theorem noUF_fixConfig (fs : JFields) (h : noUnmaskedSensitiveF fs = true) :
    noUnmaskedSensitiveF (fixConfig fs) = true := by
  unfold fixConfig
  cases hcfg : objLookup fs "config" with
  | none => exact h
  | some v =>
    cases v with
    | jobj cfs =>
      cases hgm : (objLookup cfs "gmKey").isSome with
      | true =>
        simp only [hgm, if_true]
        have hcfs : noUnmaskedSensitiveF cfs = true := noUF_lookup fs "config" _ h hcfg
        have hnew : noUnmaskedSensitiveF (objSet cfs "gmKey" maskToken) = true :=
          noUF_objSet cfs "gmKey" maskToken hcfs rfl (fun _ => rfl)
        exact noUF_objSet fs "config" _ h hnew (fun hc => absurd hc (by decide))
      | false =>
        simp only [hgm, Bool.false_eq_true, if_false]
        exact h
    | jnull => exact h
    | jbool b => exact h
    | jnum n => exact h
    | jstr s => exact h
    | jarr xs => exact h

mutual
/-- Helper: the redaction loop masks every sensitive key of a dict of
good shape. -/
theorem redactFields_masked : ∀ fs : JFields, goodF fs = true →
    noUnmaskedSensitiveF (redactFields fs) = true
  | .nil, _ => rfl
  | .cons k v tl, h => by
    have hparts : goodDictVal v = true ∧ goodF tl = true := by
      have h2 := h
      unfold goodF at h2
      simp only [Bool.and_eq_true] at h2
      exact h2
    unfold redactFields
    unfold noUnmaskedSensitiveF
    simp only [Bool.and_eq_true]
    refine ⟨⟨?_, ?_⟩, redactFields_masked tl hparts.2⟩
    · cases hsens : sensitiveKeys.contains (lowerStr k) with
      | true => simp [maskToken, isMask]
      | false => simp
    · cases hsens : sensitiveKeys.contains (lowerStr k) with
      | true =>
        simp only [hsens, if_true]
        rfl
      | false =>
        simp only [hsens, Bool.false_eq_true, if_false]
        cases v with
        | jobj fs2 =>
          have hg : goodF fs2 = true := by
            have := hparts.1
            unfold goodDictVal at this
            exact this
          exact noUF_fixConfig _ (redactFields_masked fs2 hg)
        | jarr xs =>
          have hg : goodItemsL xs = true := by
            have := hparts.1
            unfold goodDictVal at this
            exact this
          exact redactListItems_masked xs hg
        | jstr s => rfl
        | jnull => rfl
        | jbool b => rfl
        | jnum n => rfl

/-- Helper: the one-level list walk of redact_dict masks every
sensitive key of good-shaped items. -/
theorem redactListItems_masked : ∀ xs : JList, goodItemsL xs = true →
    noUnmaskedSensitiveL (redactListItems xs) = true
  | .nil, _ => rfl
  | .cons x tl, h => by
    unfold redactListItems
    unfold noUnmaskedSensitiveL
    simp only [Bool.and_eq_true]
    cases x with
    | jobj fs =>
      have hparts : goodF fs = true ∧ goodItemsL tl = true := by
        have h2 := h
        unfold goodItemsL at h2
        simp only [Bool.and_eq_true] at h2
        exact h2
      exact ⟨noUF_fixConfig _ (redactFields_masked fs hparts.1),
        redactListItems_masked tl hparts.2⟩
    | jarr ys =>
      exact absurd h (by unfold goodItemsL; simp)
    | jstr s =>
      refine ⟨rfl, redactListItems_masked tl ?_⟩
      have h2 := h
      unfold goodItemsL at h2
      exact h2
    | jnull =>
      refine ⟨rfl, redactListItems_masked tl ?_⟩
      have h2 := h
      unfold goodItemsL at h2
      exact h2
    | jbool b =>
      refine ⟨rfl, redactListItems_masked tl ?_⟩
      have h2 := h
      unfold goodItemsL at h2
      exact h2
    | jnum n =>
      refine ⟨rfl, redactListItems_masked tl ?_⟩
      have h2 := h
      unfold goodItemsL at h2
      exact h2
end

mutual
/-- Helper: redact_json masks every sensitive key of a good value. -/
theorem redactJson_masked_aux : ∀ v : JValue, goodV v = true →
    noUnmaskedSensitiveV (redact_json v) = true
  | .jobj fs, h => by
    have hg : goodF fs = true := by
      have h2 := h
      unfold goodV at h2
      exact h2
    show noUnmaskedSensitiveF (redact_dict fs) = true
    unfold redact_dict
    exact noUF_fixConfig _ (redactFields_masked fs hg)
  | .jarr xs, h => by
    have hg : goodTopL xs = true := by
      have h2 := h
      unfold goodV at h2
      exact h2
    show noUnmaskedSensitiveL (redactJsonList xs) = true
    exact redactJsonList_masked_aux xs hg
  | .jstr s, _ => rfl
  | .jnull, _ => rfl
  | .jbool b, _ => rfl
  | .jnum n, _ => rfl

/-- Helper: redact_json masks sensitive keys across top-level lists. -/
theorem redactJsonList_masked_aux : ∀ xs : JList, goodTopL xs = true →
    noUnmaskedSensitiveL (redactJsonList xs) = true
  | .nil, _ => rfl
  | .cons x tl, h => by
    have hparts : goodV x = true ∧ goodTopL tl = true := by
      have h2 := h
      unfold goodTopL at h2
      simp only [Bool.and_eq_true] at h2
      exact h2
    unfold redactJsonList
    unfold noUnmaskedSensitiveL
    simp only [Bool.and_eq_true]
    exact ⟨redactJson_masked_aux x hparts.1, redactJsonList_masked_aux tl hparts.2⟩
end

/-- C4 counterexample: a sensitive entry inside a list nested directly
inside another list below a mapping passes through redact_json
untouched, so not every sensitive-key value becomes the mask token. -/
theorem redact_json_nested_list_unmasked :
    redact_json ceC4 = ceC4 ∧ noUnmaskedSensitiveV (redact_json ceC4) = false :=
  ⟨rfl, rfl⟩

/-- C4 amended: for every nested structure in which no list occurs as a
direct item of another list below a mapping (redact_dict walks list
values only one level deep), every value stored under a sensitive key
name is replaced by the fixed mask token, regardless of the value type
and of the nesting depth. -/
theorem redact_json_masks_sensitive (v : JValue) (h : goodV v = true) :
    noUnmaskedSensitiveV (redact_json v) = true :=
  redactJson_masked_aux v h

/-- Witness for C4 amended on a nested config holding a secret. -/
theorem redact_json_masks_sensitive_witness :
    goodV vGoodW = true ∧ noUnmaskedSensitiveV (redact_json vGoodW) = true :=
  ⟨by decide, redact_json_masks_sensitive vGoodW (by decide)⟩

end DF
